import Mathlib

/-!
Shallow embedding of `dsp/modules/volcengine_maas.py`: the `VolcEngineMaaS`
language-model adapter (credential resolution, generation-parameter
normalization, request issuance with retry, call-history recording).

Modelling conventions.

* Python scalar option values are `PyVal`.  Python `int` and `float` compare
  by numeric value across the two types (`0 == 0.0` is `True`), and the code
  performs no arithmetic on option values — only literal assignment and
  `==` / `>` comparisons — so both are modelled by one rational-number
  constructor, which is observationally faithful for those operations.
  Float literals such as `0.7` are written as explicit normalized rationals
  (`ratOfParts`) so that every comparison reduces in the kernel.
* Python dicts are association lists in insertion order.  `PyDict.set`
  mirrors `d[k] = v` (replace the value in place when the key exists, else
  append), so dict displays, double-splat merges and `dict.update` are left
  folds of `set`, matching CPython's last-binding-wins, order-preserving
  semantics.
* The remote service is an oracle
  `chat : String → ChatReq → Except String String`, returning
  `response.choice.message.content` on success — the only field the adapter
  reads — or the raised exception's message text on failure.  Methods thread
  the adapter object explicitly and return the unchanged object when an
  exception propagates out of them.
* The decorator
  `backoff.on_exception(backoff.expo, Exception, max_time=1000,
  on_backoff=backoff_hdlr, giveup=giveup_hdlr)` on `request` is modelled by
  `requestLoop`: per-attempt remote outcomes are an oracle family indexed by
  the attempt number, and the remaining elapsed-time budget before the
  `max_time` ceiling is fuel — each backoff pause consumes one unit, and the
  loop stops retrying when the giveup predicate fires or the budget is
  exhausted, re-raising the last failure.  `backoff_hdlr` only prints a
  diagnostic line and is not modelled.
-/

/-- A normalized rational given by its numerator and denominator, used to
write Python float literals so that they reduce structurally. -/
def ratOfParts (n : Int) (d : Nat) (h1 : d ≠ 0) (h2 : n.natAbs.Coprime d) : Rat :=
  ⟨n, d, h1, h2⟩

/-- A Python scalar value as the adapter manipulates it: `None`, a number
(`int` or `float`), or a string. -/
inductive PyVal where
  | none
  | num (q : Rat)
  | str (s : String)
deriving DecidableEq

/-- The float literal `0.7`. -/
def val0_7 : PyVal := PyVal.num (ratOfParts 7 10 (by norm_num) (by norm_num))

/-- The float literal `0.9`. -/
def val0_9 : PyVal := PyVal.num (ratOfParts 9 10 (by norm_num) (by norm_num))

/-- The float literal `0.5`. -/
def val0_5 : PyVal := PyVal.num (ratOfParts 1 2 (by norm_num) (by norm_num))

/-- Python `==` on the modelled values: numeric equality for numbers
(int/float cross-type equality holds in Python), structural equality for
strings, `None == None`, and `False` across kinds. -/
def pyEq : PyVal → PyVal → Bool
  | PyVal.num x, PyVal.num y => x == y
  | PyVal.str x, PyVal.str y => x == y
  | PyVal.none, PyVal.none => true
  | _, _ => false

/-- A Python dict with string keys, as an association list in insertion
order (CPython dicts preserve insertion order and have no duplicate keys
when built through `set`). -/
abbrev PyDict := List (String × PyVal)

namespace PyDict

/-- `d.get(k)` / `d[k]` lookup (first occurrence; lists built by `set`
have at most one). -/
def get? (d : PyDict) (k : String) : Option PyVal :=
  (d.find? (fun p => p.1 == k)).map (fun p => p.2)

/-- `k in d`. -/
def hasKey (d : PyDict) (k : String) : Bool :=
  d.any (fun p => p.1 == k)

/-- `d[k] = v`: replace the value at `k` in place when the key exists,
else append the new pair. -/
def set (d : PyDict) (k : String) (v : PyVal) : PyDict :=
  if d.hasKey k then d.map (fun p => if p.1 == k then (k, v) else p)
  else d ++ [(k, v)]

/-- `d.pop(k, ...)`'s removal effect: drop the pair with key `k`. -/
def erase (d : PyDict) (k : String) : PyDict :=
  d.filter (fun p => !(p.1 == k))

/-- Double-splat of `b` on top of `a` (also `a.update(b)`): overlay the
entries of `b`, `b` winning on key collisions. -/
def merge (a b : PyDict) : PyDict :=
  b.foldl (fun acc p => acc.set p.1 p.2) a

end PyDict

/-- `c :: cs` starts with `pat` (character-by-character comparison). -/
def listStartsWith : List Char → List Char → Bool
  | [], _ => true
  | _ :: _, [] => false
  | p :: ps, c :: cs => p == c && listStartsWith ps cs

/-- Python's `pat in s` contiguous-substring test over character lists. -/
def listHasInfix (pat : List Char) : List Char → Bool
  | [] => listStartsWith pat []
  | c :: cs => listStartsWith pat (c :: cs) || listHasInfix pat cs

/-- `giveup_hdlr`: decides when the retry loop gives up.  Keep retrying
(return `false`) exactly when the failure's message text contains the
substring `"rate limits"`; give up (return `true`) on every other
message. -/
def giveup_hdlr (message : String) : Bool :=
  if listHasInfix "rate limits".toList message.toList then false else true

/-- The session object built by `MaasService(api_domain, api_region)` with
`set_ak` / `set_sk` applied: it carries the resolved domain, region and
credentials (either of which may be absent, `None`). -/
structure MaasService where
  api_domain : String
  api_region : String
  ak : Option String
  sk : Option String
deriving DecidableEq

/-- One entry of `self.history`: the dict literal appended by
`basic_request`, with the nested `response` dict flattened into its two
fields. -/
structure HistoryEntry where
  prompt : String
  response_prompt : String
  response_choices : List String
  kwargs : PyDict
  raw_kwargs : PyDict
deriving DecidableEq

/-- The adapter object: the fields `__init__` assigns. -/
structure VolcEngineMaaS where
  endpoint_id : String
  provider : String
  maas : MaasService
  history : List HistoryEntry
  kwargs : PyDict
deriving DecidableEq

/-- Python `x or default` for `x : Optional[str]` and a string default:
`None` and the empty string are falsy, so both fall back. -/
def pyOrStr : Option String → String → String
  | Option.none, dflt => dflt
  | some s, dflt => if s == "" then dflt else s

/-- Python `x or y` for two `Optional[str]` operands: `y` whenever `x` is
`None` or empty, whatever `y` itself is. -/
def pyOrOpt : Option String → Option String → Option String
  | Option.none, y => y
  | some s, y => if s == "" then y else some s

/-- `_init_maas`: resolve domain, region and the two credentials, then
build the session.  `env` is `os.environ.get`. -/
def _init_maas (env : String → Option String)
    (api_ak api_sk api_domain api_region : Option String) : MaasService :=
  let api_domain := pyOrStr api_domain "maas-api.ml-platform-cn-beijing.volces.com"
  let api_region := pyOrStr api_region "cn-beijing"
  let api_ak := pyOrOpt api_ak (env "VOLC_ACCESSKEY")
  let api_sk := pyOrOpt api_sk (env "VOLC_SECRETKEY")
  ⟨api_domain, api_region, api_ak, api_sk⟩

/-- The built-in default generation options set by `__init__`. -/
def defaultKwargs : PyDict :=
  [("max_new_tokens", PyVal.num 1000),
   ("min_new_tokens", PyVal.num 1),
   ("temperature", val0_7),
   ("top_p", val0_9),
   ("top_k", PyVal.num 0),
   ("max_prompt_tokens", PyVal.num 32768)]

/-- `VolcEngineMaaS.__init__`: build the session, fix the endpoint and
provider label, start with an empty history, and overlay the caller's
default-option overrides on the built-in defaults. -/
def VolcEngineMaaS.init (env : String → Option String) (endpoint_id : String)
    (api_ak api_sk api_domain api_region : Option String)
    (kwargs : PyDict) : VolcEngineMaaS :=
  { endpoint_id := endpoint_id
    provider := "volcengine_maas"
    maas := _init_maas env api_ak api_sk api_domain api_region
    history := []
    kwargs := PyDict.merge defaultKwargs kwargs }

/-- The dict comprehension over `params_mapping`: rebuild the caller's
options, renaming the key `max_tokens` to `max_output_tokens`. -/
def renameParams (parameters : PyDict) : PyDict :=
  parameters.foldl
    (fun acc p => acc.set (if p.1 == "max_tokens" then "max_output_tokens" else p.1) p.2) []

/-- The merge step of `_prepare_params`: defaults overlaid by the renamed
caller options, caller values winning. -/
def mergedParams (self : VolcEngineMaaS) (parameters : PyDict) : PyDict :=
  PyDict.merge self.kwargs (renameParams parameters)

/-- The final filter of `_prepare_params`: keep only the keys of
`self.kwargs` (the source iterates a key-set intersection; iteration order
of the set does not affect which key maps to which value, and this model
fixes the insertion order of `params`). -/
def filterToKwargs (params kwargs : PyDict) : PyDict :=
  params.filter (fun p => kwargs.hasKey p.1)

/-- `_prepare_params`: rename `max_tokens`, merge onto the defaults, pop
`n` (forcing temperature `0.7` when a multi-completion request meets
temperature `0.0`), and filter to the recognized keys.  Python raises
`TypeError` when the popped `n` is compared to `1` at a non-numeric type,
and `KeyError` if `temperature` is missing at the comparison; those
executions return no mapping and are the `Except.error` branches. -/
def VolcEngineMaaS._prepare_params (self : VolcEngineMaaS) (parameters : PyDict) :
    Except String PyDict :=
  let params := mergedParams self parameters
  let n := params.get? "n"
  let params := params.erase "n"
  match n with
  | Option.none => Except.ok (filterToKwargs params self.kwargs)
  | some PyVal.none => Except.ok (filterToKwargs params self.kwargs)
  | some (PyVal.str _) => Except.error "TypeError: not supported between str and int"
  | some (PyVal.num q) =>
    if q > 1 then
      match params.get? "temperature" with
      | Option.none => Except.error "KeyError: temperature"
      | some t =>
        if pyEq t (PyVal.num 0) then
          Except.ok (filterToKwargs (params.set "temperature" val0_7) self.kwargs)
        else Except.ok (filterToKwargs params self.kwargs)
    else Except.ok (filterToKwargs params self.kwargs)

/-- `ChatRole.USER` from the vendor library. -/
def ChatRole_USER : String := "user"

/-- One message of the chat request. -/
structure ChatMessage where
  role : String
  content : String
deriving DecidableEq

/-- The request object `basic_request` submits. -/
structure ChatReq where
  parameters : PyDict
  messages : List ChatMessage
deriving DecidableEq

/-- `basic_request`: normalize the options, issue the single-user-turn
chat request, and on success append the history record and return the
one-element completion list.  On any exception (from normalization or from
the remote call) the adapter object is unchanged and the same exception
propagates. -/
def VolcEngineMaaS.basic_request (self : VolcEngineMaaS) (prompt : String)
    (kwargs : PyDict) (chat : String → ChatReq → Except String String) :
    VolcEngineMaaS × Except String (List String) :=
  let raw_kwargs := kwargs
  match self._prepare_params raw_kwargs with
  | Except.error e => (self, Except.error e)
  | Except.ok params =>
    let req : ChatReq := ⟨params, [⟨ChatRole_USER, prompt⟩]⟩
    match chat self.endpoint_id req with
    | Except.error e => (self, Except.error e)
    | Except.ok content =>
      let entry : HistoryEntry := ⟨prompt, prompt, [content], kwargs, raw_kwargs⟩
      ({ self with history := self.history ++ [entry] }, Except.ok [content])

/-- The retry loop that `backoff.on_exception` wraps around
`basic_request`: on success stop; on a failure, give up (re-raise) when
`giveup_hdlr` says so or when the elapsed-time budget is exhausted, else
back off and try again. -/
def requestLoop (prompt : String) (kwargs : PyDict)
    (chats : Nat → String → ChatReq → Except String String) :
    Nat → Nat → VolcEngineMaaS → VolcEngineMaaS × Except String (List String)
  | attempt, timeLeft, s =>
    match timeLeft, (s.basic_request prompt kwargs (chats attempt)).2 with
    | _, Except.ok v =>
      ((s.basic_request prompt kwargs (chats attempt)).1, Except.ok v)
    | 0, Except.error msg =>
      ((s.basic_request prompt kwargs (chats attempt)).1, Except.error msg)
    | t + 1, Except.error msg =>
      if giveup_hdlr msg then
        ((s.basic_request prompt kwargs (chats attempt)).1, Except.error msg)
      else requestLoop prompt kwargs chats (attempt + 1) t
        (s.basic_request prompt kwargs (chats attempt)).1

/-- `request`: `basic_request` under the backoff decorator, starting at
attempt `0` with the full elapsed-time budget. -/
def VolcEngineMaaS.request (self : VolcEngineMaaS) (prompt : String) (kwargs : PyDict)
    (chats : Nat → String → ChatReq → Except String String) (timeBudget : Nat) :
    VolcEngineMaaS × Except String (List String) :=
  requestLoop prompt kwargs chats 0 timeBudget self

/-- `__call__`: the public entry point; accepts the two flags and delegates
to `request` without using them. -/
def VolcEngineMaaS.call (self : VolcEngineMaaS) (prompt : String)
    (only_completed return_sorted : Bool) (kwargs : PyDict)
    (chats : Nat → String → ChatReq → Except String String) (timeBudget : Nat) :
    VolcEngineMaaS × Except String (List String) :=
  self.request prompt kwargs chats timeBudget

theorem giveup_hdlr_rate_limit_msg :
    giveup_hdlr "hit the rate limits of the api" = false := by decide

theorem giveup_hdlr_other_msg : giveup_hdlr "connection reset" = true := by decide

/-! ### Dictionary lemmas -/

namespace PyDict

theorem get?_cons (p : String × PyVal) (t : PyDict) (k : String) :
    get? (p :: t) k = if p.1 = k then some p.2 else get? t k := by
  by_cases h : p.1 = k <;> simp [get?, List.find?_cons, h]

theorem hasKey_cons (p : String × PyVal) (t : PyDict) (k : String) :
    hasKey (p :: t) k = ((p.1 == k) || hasKey t k) := by
  simp [hasKey]

theorem hasKey_eq_isSome_get? (d : PyDict) (k : String) :
    hasKey d k = (get? d k).isSome := by
  induction d with
  | nil => rfl
  | cons p t ih =>
    rw [hasKey_cons, get?_cons]
    by_cases h : p.1 = k <;> simp [h, ih]

theorem get?_append (a b : PyDict) (k : String) :
    get? (a ++ b) k = ((get? a k).orElse fun _ => get? b k) := by
  induction a with
  | nil => simp [get?]
  | cons p t ih =>
    rw [List.cons_append, get?_cons, get?_cons]
    by_cases h : p.1 = k <;> simp [h, ih]

theorem get?_map_set (d : PyDict) (k : String) (v : PyVal) (k' : String) :
    get? (d.map fun p => if p.1 == k then (k, v) else p) k'
      = if k' = k then (if hasKey d k then some v else Option.none)
        else get? d k' := by
  simp only [beq_iff_eq]
  induction d with
  | nil => by_cases h : k' = k <;> simp [get?, h, hasKey]
  | cons p t ih =>
    rw [List.map_cons]
    by_cases hp : p.1 = k
    · rw [if_pos hp]
      simp only [get?_cons, hasKey_cons]
      by_cases hk : k' = k
      · simp [hk, hp]
      · simp [hp, hk, Ne.symm hk, ih]
    · rw [if_neg hp]
      simp only [get?_cons, hasKey_cons]
      by_cases hpk : p.1 = k'
      · have hk : ¬ k' = k := fun h => hp (hpk.trans h)
        simp [hpk, hk]
      · by_cases hk : k' = k
        · subst hk
          simp [hpk, hp, ih]
        · simp [hpk, hk, ih]

theorem get?_set (d : PyDict) (k : String) (v : PyVal) (k' : String) :
    get? (set d k v) k' = if k' = k then some v else get? d k' := by
  unfold set
  by_cases hmem : hasKey d k
  · rw [if_pos hmem, get?_map_set, if_pos hmem]
  · rw [if_neg hmem, get?_append]
    have hb : hasKey d k = false := by simpa using hmem
    have hnone : get? d k = Option.none := by
      have := hasKey_eq_isSome_get? d k
      rw [hb] at this
      cases hg : get? d k
      · rfl
      · rw [hg] at this; simp at this
    by_cases hk : k' = k
    · subst hk; simp [hnone, get?_cons]
    · cases hg : get? d k' <;> simp [hg, get?_cons, Ne.symm hk, get?, hk]

theorem hasKey_set (d : PyDict) (k : String) (v : PyVal) (k' : String) :
    hasKey (set d k v) k' = (hasKey d k' || (k' == k)) := by
  rw [hasKey_eq_isSome_get?, get?_set, hasKey_eq_isSome_get?]
  by_cases h : k' = k <;> simp [h]

theorem get?_erase (d : PyDict) (k k' : String) :
    get? (erase d k) k' = if k' = k then Option.none else get? d k' := by
  induction d with
  | nil => by_cases h : k' = k <;> simp [erase, get?, h]
  | cons p t ih =>
    rw [erase, List.filter_cons]
    by_cases hp : p.1 = k
    · rw [if_neg (by simp [hp]), get?_cons]
      by_cases hk : k' = k
      · simpa [hk] using ih
      · have : ¬ p.1 = k' := by rw [hp]; exact Ne.symm hk
        rw [erase] at ih
        simp [this, ih, hk]
    · rw [if_pos (by simp [hp]), get?_cons, get?_cons]
      by_cases hpk : p.1 = k'
      · have hk : ¬ k' = k := fun h => hp (hpk.trans h)
        simp [hpk, hk]
      · rw [erase] at ih
        simp [hpk, ih]

theorem hasKey_merge_left (a b : PyDict) (k : String) (h : hasKey a k = true) :
    hasKey (merge a b) k = true := by
  induction b generalizing a with
  | nil => exact h
  | cons p t ih =>
    have hstep : merge a (p :: t) = merge (a.set p.1 p.2) t := rfl
    rw [hstep]
    exact ih _ (by rw [hasKey_set, h]; rfl)

end PyDict

theorem get?_filterToKwargs (p kw : PyDict) (k : String) :
    (filterToKwargs p kw).get? k = if kw.hasKey k then p.get? k else Option.none := by
  induction p with
  | nil => by_cases h : kw.hasKey k <;> simp [filterToKwargs, PyDict.get?, h]
  | cons q t ih =>
    rw [filterToKwargs, List.filter_cons]
    by_cases hq : kw.hasKey q.1
    · rw [if_pos hq, PyDict.get?_cons, PyDict.get?_cons]
      by_cases hqk : q.1 = k
      · rw [hqk] at hq; simp [hqk, hq]
      · rw [filterToKwargs] at ih
        simp [hqk, ih]
    · rw [if_neg hq, PyDict.get?_cons]
      by_cases hqk : q.1 = k
      · rw [hqk] at hq
        rw [filterToKwargs] at ih
        simp [hqk, hq, ih]
      · rw [filterToKwargs] at ih
        simp [hqk, ih]

theorem hasKey_filterToKwargs (p kw : PyDict) (k : String) :
    (filterToKwargs p kw).hasKey k = (p.hasKey k && kw.hasKey k) := by
  rw [PyDict.hasKey_eq_isSome_get?, get?_filterToKwargs]
  by_cases h : kw.hasKey k
  · rw [if_pos h, h, PyDict.hasKey_eq_isSome_get?]
    simp
  · have hb : kw.hasKey k = false := by simpa using h
    rw [if_neg h, hb]
    simp

/-- Every successful run of `_prepare_params` returns the final filter of
some intermediate dict from which `n` has been popped. -/
theorem prepare_ok_shape (self : VolcEngineMaaS) (parameters : PyDict) (d : PyDict)
    (hok : self._prepare_params parameters = Except.ok d) :
    ∃ params, d = filterToKwargs params self.kwargs
      ∧ params.get? "n" = Option.none := by
  have hn_erase : ((mergedParams self parameters).erase "n").get? "n" = Option.none := by
    rw [PyDict.get?_erase]; simp
  have hset : (((mergedParams self parameters).erase "n").set "temperature" val0_7).get? "n"
      = Option.none := by
    rw [PyDict.get?_set]
    simp [hn_erase]
  simp only [VolcEngineMaaS._prepare_params] at hok
  repeat' split at hok
  all_goals try exact Except.noConfusion hok
  all_goals injection hok with h
  all_goals first
    | exact ⟨_, h.symm, hn_erase⟩
    | exact ⟨_, h.symm, hset⟩

/-- `_prepare_params` written as the match its body reduces to (for
rewriting its scrutinees under hypotheses). -/
theorem prepare_params_eq (self : VolcEngineMaaS) (parameters : PyDict) :
    self._prepare_params parameters =
      (match (mergedParams self parameters).get? "n" with
       | Option.none =>
         Except.ok (filterToKwargs ((mergedParams self parameters).erase "n") self.kwargs)
       | some PyVal.none =>
         Except.ok (filterToKwargs ((mergedParams self parameters).erase "n") self.kwargs)
       | some (PyVal.str _) => Except.error "TypeError: not supported between str and int"
       | some (PyVal.num q) =>
         if q > 1 then
           match ((mergedParams self parameters).erase "n").get? "temperature" with
           | Option.none => Except.error "KeyError: temperature"
           | some t =>
             if pyEq t (PyVal.num 0) then
               Except.ok (filterToKwargs
                 (((mergedParams self parameters).erase "n").set "temperature" val0_7)
                 self.kwargs)
             else Except.ok (filterToKwargs ((mergedParams self parameters).erase "n") self.kwargs)
         else Except.ok (filterToKwargs ((mergedParams self parameters).erase "n") self.kwargs)) :=
  rfl

/-! ### Fixtures for the concrete witnesses -/

/-- An empty process environment. -/
def env0 : String → Option String := fun _ => Option.none

/-- An adapter constructed with only the endpoint id: built-in defaults,
no constructor overrides. -/
def self0 : VolcEngineMaaS :=
  VolcEngineMaaS.init env0 "ep" Option.none Option.none Option.none Option.none []

/-! ### The claims -/

/-- C1, counterexample.  The claim says the output of `_prepare_params`
on an input containing `max_tokens = v` contains `max_output_tokens = v`.
It does not: with the built-in default options, the input
`max_tokens = 5` yields exactly the default mapping, in which neither
`max_output_tokens` nor `max_tokens` occurs — the renamed key is dropped
by the final filter because `max_output_tokens` is not a default-option
key. -/
theorem C1_counterexample :
    self0._prepare_params [("max_tokens", PyVal.num 5)] = Except.ok defaultKwargs
      ∧ defaultKwargs.get? "max_output_tokens" = Option.none
      ∧ defaultKwargs.get? "max_tokens" = Option.none :=
  ⟨rfl, rfl, rfl⟩

/-- C1 (amended): for every caller-supplied options mapping containing the
key `max_tokens`, under the adapter's built-in default options the mapping
returned by `_prepare_params` contains neither `max_tokens` nor
`max_output_tokens`: the key is renamed away and the renamed key is then
silently dropped by the final filter, `max_output_tokens` not being among
the default-option keys. -/
theorem C1_corrected (self : VolcEngineMaaS) (parameters : PyDict) (v : PyVal) (d : PyDict)
    (hkw : self.kwargs = defaultKwargs)
    (hmt : parameters.get? "max_tokens" = some v)
    (hok : self._prepare_params parameters = Except.ok d) :
    d.get? "max_tokens" = Option.none ∧ d.get? "max_output_tokens" = Option.none := by
  obtain ⟨params, hd, -⟩ := prepare_ok_shape self parameters d hok
  subst hd
  rw [get?_filterToKwargs, get?_filterToKwargs, hkw]
  exact ⟨by rw [if_neg (by decide)], by rw [if_neg (by decide)]⟩

/-- C1 witness: the amended claim at the counterexample's input. -/
theorem C1_witness :
    defaultKwargs.get? "max_tokens" = Option.none
      ∧ defaultKwargs.get? "max_output_tokens" = Option.none :=
  C1_corrected self0 [("max_tokens", PyVal.num 5)] (PyVal.num 5) defaultKwargs rfl rfl rfl

/-- C2: every key of a mapping returned by `_prepare_params` is a key of
the adapter's default-options mapping `self.kwargs`, and the key `n` never
appears in the returned mapping. -/
theorem C2_prepare_keys (self : VolcEngineMaaS) (parameters : PyDict) (d : PyDict)
    (hok : self._prepare_params parameters = Except.ok d) :
    (∀ k, d.hasKey k = true → self.kwargs.hasKey k = true)
      ∧ d.hasKey "n" = false := by
  obtain ⟨params, hd, hn⟩ := prepare_ok_shape self parameters d hok
  subst hd
  constructor
  · intro k hk
    rw [hasKey_filterToKwargs] at hk
    exact (Bool.and_eq_true _ _ |>.mp hk).2
  · rw [hasKey_filterToKwargs]
    have hfalse : params.hasKey "n" = false := by
      rw [PyDict.hasKey_eq_isSome_get?, hn]
      rfl
    rw [hfalse]
    rfl

/-- An options mapping with an unrecognized key and an `n` key. -/
def pexC2 : PyDict := [("bogus", PyVal.num 1), ("n", PyVal.num 5)]

/-- C2 witness: on a concrete input carrying an unrecognized key and `n`,
the returned mapping is exactly the defaults, and `n` is absent. -/
theorem C2_witness :
    self0._prepare_params pexC2 = Except.ok defaultKwargs
      ∧ defaultKwargs.hasKey "bogus" = false
      ∧ defaultKwargs.hasKey "n" = false := by
  have h := C2_prepare_keys self0 pexC2 defaultKwargs rfl
  exact ⟨rfl, rfl, h.2⟩

/-- C3: with `n = 2` and temperature `0.0` in the merged options the output
temperature is exactly `0.7`; with `n = 2` and temperature `0.5` it stays
`0.5`; with no `n` key the merged temperature passes through unchanged,
whatever its value. -/
theorem C3_temperature (self : VolcEngineMaaS) (ck parameters : PyDict)
    (hkw : self.kwargs = PyDict.merge defaultKwargs ck) :
    ((mergedParams self parameters).get? "n" = some (PyVal.num 2) →
      (mergedParams self parameters).get? "temperature" = some (PyVal.num 0) →
      ∃ d, self._prepare_params parameters = Except.ok d
        ∧ d.get? "temperature" = some val0_7)
  ∧ ((mergedParams self parameters).get? "n" = some (PyVal.num 2) →
      (mergedParams self parameters).get? "temperature" = some val0_5 →
      ∃ d, self._prepare_params parameters = Except.ok d
        ∧ d.get? "temperature" = some val0_5)
  ∧ (∀ t, (mergedParams self parameters).get? "n" = Option.none →
      (mergedParams self parameters).get? "temperature" = some t →
      ∃ d, self._prepare_params parameters = Except.ok d
        ∧ d.get? "temperature" = some t) := by
  have htemp : self.kwargs.hasKey "temperature" = true := by
    rw [hkw]
    exact PyDict.hasKey_merge_left _ _ _ rfl
  refine ⟨?_, ?_, ?_⟩
  · intro hn ht
    have ht' : ((mergedParams self parameters).erase "n").get? "temperature"
        = some (PyVal.num 0) := by
      rw [PyDict.get?_erase]
      simpa using ht
    refine ⟨filterToKwargs (((mergedParams self parameters).erase "n").set "temperature" val0_7)
      self.kwargs, ?_, ?_⟩
    · rw [prepare_params_eq, hn, ht']
      exact rfl
    · rw [get?_filterToKwargs, htemp, PyDict.get?_set]
      simp
  · intro hn ht
    have ht' : ((mergedParams self parameters).erase "n").get? "temperature"
        = some val0_5 := by
      rw [PyDict.get?_erase]
      simpa using ht
    refine ⟨filterToKwargs ((mergedParams self parameters).erase "n") self.kwargs, ?_, ?_⟩
    · rw [prepare_params_eq, hn, ht']
      exact rfl
    · rw [get?_filterToKwargs, htemp]
      simpa using ht'
  · intro t hn ht
    have ht' : ((mergedParams self parameters).erase "n").get? "temperature"
        = some t := by
      rw [PyDict.get?_erase]
      simpa using ht
    refine ⟨filterToKwargs ((mergedParams self parameters).erase "n") self.kwargs, ?_, ?_⟩
    · rw [prepare_params_eq, hn]
    · rw [get?_filterToKwargs, htemp]
      simpa using ht'

/-- C3 witness: the three temperature behaviours at concrete inputs. -/
theorem C3_witness :
    (∃ d, self0._prepare_params [("n", PyVal.num 2), ("temperature", PyVal.num 0)]
        = Except.ok d ∧ d.get? "temperature" = some val0_7)
  ∧ (∃ d, self0._prepare_params [("n", PyVal.num 2), ("temperature", val0_5)]
        = Except.ok d ∧ d.get? "temperature" = some val0_5)
  ∧ (∃ d, self0._prepare_params [("temperature", PyVal.num 3)]
        = Except.ok d ∧ d.get? "temperature" = some (PyVal.num 3)) :=
  ⟨(C3_temperature self0 [] _ rfl).1 rfl rfl,
   (C3_temperature self0 [] _ rfl).2.1 rfl rfl,
   (C3_temperature self0 [] _ rfl).2.2 (PyVal.num 3) rfl rfl⟩

/-! ### State-effect lemmas -/

/-- A call leaves every adapter field unchanged except that the history
grows by some suffix. -/
def onlyAppendsHistory (s s' : VolcEngineMaaS) : Prop :=
  s'.endpoint_id = s.endpoint_id ∧ s'.provider = s.provider ∧ s'.maas = s.maas
    ∧ s'.kwargs = s.kwargs ∧ ∃ t, s'.history = s.history ++ t

theorem onlyAppendsHistory_self (s : VolcEngineMaaS) : onlyAppendsHistory s s :=
  ⟨rfl, rfl, rfl, rfl, [], by simp⟩

theorem onlyAppendsHistory_trans {a b c : VolcEngineMaaS}
    (h1 : onlyAppendsHistory a b) (h2 : onlyAppendsHistory b c) :
    onlyAppendsHistory a c := by
  obtain ⟨e1, p1, m1, k1, t1, h1⟩ := h1
  obtain ⟨e2, p2, m2, k2, t2, h2⟩ := h2
  exact ⟨e2.trans e1, p2.trans p1, m2.trans m1, k2.trans k1, t1 ++ t2,
    by rw [h2, h1, List.append_assoc]⟩

/-- With no budget left, the loop is a single attempt whose outcome (state
and result) is returned as is. -/
theorem requestLoop_zero (prompt : String) (kwargs : PyDict)
    (chats : Nat → String → ChatReq → Except String String)
    (attempt : Nat) (s : VolcEngineMaaS) :
    requestLoop prompt kwargs chats attempt 0 s
      = ((s.basic_request prompt kwargs (chats attempt)).1,
         (s.basic_request prompt kwargs (chats attempt)).2) := by
  rw [requestLoop.eq_def]
  cases hres : (s.basic_request prompt kwargs (chats attempt)).2 <;> simp [hres]

/-- With budget remaining, the loop attempts once and either stops
(success, or a failure the giveup predicate keeps) or backs off and
retries from the returned state. -/
theorem requestLoop_succ (prompt : String) (kwargs : PyDict)
    (chats : Nat → String → ChatReq → Except String String)
    (attempt t : Nat) (s : VolcEngineMaaS) :
    requestLoop prompt kwargs chats attempt (t + 1) s
      = match (s.basic_request prompt kwargs (chats attempt)).2 with
        | Except.ok v =>
          ((s.basic_request prompt kwargs (chats attempt)).1, Except.ok v)
        | Except.error msg =>
          if giveup_hdlr msg then
            ((s.basic_request prompt kwargs (chats attempt)).1, Except.error msg)
          else requestLoop prompt kwargs chats (attempt + 1) t
            (s.basic_request prompt kwargs (chats attempt)).1 := by
  rw [requestLoop.eq_def]
  cases hres : (s.basic_request prompt kwargs (chats attempt)).2 <;> simp [hres]

theorem basic_request_onlyAppends (self : VolcEngineMaaS) (prompt : String)
    (kwargs : PyDict) (chat : String → ChatReq → Except String String) :
    onlyAppendsHistory self (self.basic_request prompt kwargs chat).1 := by
  simp only [VolcEngineMaaS.basic_request]
  split
  · exact onlyAppendsHistory_self self
  · split
    · exact onlyAppendsHistory_self self
    · exact ⟨rfl, rfl, rfl, rfl, [_], rfl⟩

/-- A failing `basic_request` returns the adapter unchanged together with
the same exception. -/
theorem basic_request_error (self : VolcEngineMaaS) (prompt : String) (kwargs : PyDict)
    (chat : String → ChatReq → Except String String) (msg : String)
    (h : (self.basic_request prompt kwargs chat).2 = Except.error msg) :
    self.basic_request prompt kwargs chat = (self, Except.error msg) := by
  simp only [VolcEngineMaaS.basic_request] at h ⊢
  split at h
  · simp at h
    rw [h]
  · split at h
    · simp at h
      rw [h]
    · simp at h

theorem requestLoop_onlyAppends (prompt : String) (kwargs : PyDict)
    (chats : Nat → String → ChatReq → Except String String)
    (attempt timeLeft : Nat) (s : VolcEngineMaaS) :
    onlyAppendsHistory s (requestLoop prompt kwargs chats attempt timeLeft s).1 := by
  induction timeLeft generalizing attempt s with
  | zero =>
    have hb := basic_request_onlyAppends s prompt kwargs (chats attempt)
    rw [requestLoop_zero]
    exact hb
  | succ t ih =>
    have hb := basic_request_onlyAppends s prompt kwargs (chats attempt)
    rw [requestLoop_succ]
    cases hres : (s.basic_request prompt kwargs (chats attempt)).2 with
    | ok v => simpa using hb
    | error msg =>
      by_cases hg : giveup_hdlr msg
      · simpa [hg] using hb
      · have hgf : giveup_hdlr msg = false := by simpa using hg
        have hstep := onlyAppendsHistory_trans hb
          (ih (attempt + 1) (s.basic_request prompt kwargs (chats attempt)).1)
        simpa [hgf] using hstep

/-- C4: inside `request`'s retry loop, a failure whose message lacks the
rate-limit substring propagates at once with no retry, while a failure
whose message contains `"rate limits"` is retried (consuming backoff
budget) until the elapsed-time ceiling is exhausted, at which point the
last failure propagates. -/
theorem C4_retry (s : VolcEngineMaaS) (prompt : String) (kwargs : PyDict)
    (chats : Nat → String → ChatReq → Except String String) (attempt : Nat) (msg : String)
    (hfail : (s.basic_request prompt kwargs (chats attempt)).2 = Except.error msg) :
    (listHasInfix "rate limits".toList msg.toList = false →
      ∀ timeLeft, requestLoop prompt kwargs chats attempt timeLeft s
        = (s, Except.error msg))
  ∧ (listHasInfix "rate limits".toList msg.toList = true →
      ∀ t, requestLoop prompt kwargs chats attempt (t + 1) s
        = requestLoop prompt kwargs chats (attempt + 1) t s)
  ∧ (listHasInfix "rate limits".toList msg.toList = true →
      requestLoop prompt kwargs chats attempt 0 s = (s, Except.error msg)) := by
  have hpair := basic_request_error s prompt kwargs (chats attempt) msg hfail
  refine ⟨?_, ?_, ?_⟩
  · intro hni timeLeft
    have hg : giveup_hdlr msg = true := by
      unfold giveup_hdlr
      rw [hni]
      rfl
    cases timeLeft with
    | zero =>
      rw [requestLoop_zero, hpair]
    | succ t =>
      rw [requestLoop_succ, hpair]
      simp [hg]
  · intro hyes t
    have hg : giveup_hdlr msg = false := by
      unfold giveup_hdlr
      rw [hyes]
      rfl
    rw [requestLoop_succ, hpair]
    simp [hg]
  · intro hyes
    rw [requestLoop_zero, hpair]

/-- A remote that always fails with a rate-limit message. -/
def chatsRL : Nat → String → ChatReq → Except String String :=
  fun _ _ _ => Except.error "reached rate limits, slow down"

/-- A remote that always fails with an unrelated message. -/
def chatsBoom : Nat → String → ChatReq → Except String String :=
  fun _ _ _ => Except.error "boom"

/-- C4 witness: a non-rate-limit failure propagates with budget left; a
rate-limit failure consumes one backoff step and propagates only at budget
zero. -/
theorem C4_witness :
    requestLoop "p" [] chatsBoom 0 5 self0 = (self0, Except.error "boom")
  ∧ requestLoop "p" [] chatsRL 0 1 self0 = requestLoop "p" [] chatsRL 1 0 self0
  ∧ requestLoop "p" [] chatsRL 0 0 self0
      = (self0, Except.error "reached rate limits, slow down") :=
  ⟨(C4_retry self0 "p" [] chatsBoom 0 "boom" rfl).1 (by decide) 5,
   (C4_retry self0 "p" [] chatsRL 0 "reached rate limits, slow down" rfl).2.1 (by decide) 0,
   (C4_retry self0 "p" [] chatsRL 0 "reached rate limits, slow down" rfl).2.2 (by decide)⟩

/-- C5: a successful `basic_request` returns a one-element completion
list, and appends exactly one history entry whose prompt is the call's
prompt and whose response choices are that one-element list. -/
theorem C5_success (self : VolcEngineMaaS) (prompt : String) (kwargs : PyDict)
    (chat : String → ChatReq → Except String String) (s' : VolcEngineMaaS)
    (out : List String)
    (hok : self.basic_request prompt kwargs chat = (s', Except.ok out)) :
    ∃ content, out = [content]
      ∧ s'.history = self.history ++ [⟨prompt, prompt, [content], kwargs, kwargs⟩]
      ∧ s'.history.length = self.history.length + 1
      ∧ s'.history.getLast? = some ⟨prompt, prompt, [content], kwargs, kwargs⟩ := by
  simp only [VolcEngineMaaS.basic_request] at hok
  split at hok
  · simp at hok
  · split at hok
    · simp at hok
    · rename_i params hprep content hchat
      injection hok with h1 h2
      injection h2 with h3
      subst h1
      refine ⟨content, h3.symm, rfl, by simp, ?_⟩
      simp

/-- A remote that always succeeds with the completion text `"world"`. -/
def chatOk : String → ChatReq → Except String String :=
  fun _ _ => Except.ok "world"

/-- C5 witness: the history append and return value of a concrete
successful call. -/
theorem C5_witness :
    ∃ content, (["world"] : List String) = [content]
      ∧ (self0.basic_request "hello" [] chatOk).1.history
          = self0.history ++ [⟨"hello", "hello", [content], [], []⟩]
      ∧ (self0.basic_request "hello" [] chatOk).1.history.length
          = self0.history.length + 1
      ∧ (self0.basic_request "hello" [] chatOk).1.history.getLast?
          = some ⟨"hello", "hello", [content], [], []⟩ :=
  C5_success self0 "hello" [] chatOk _ ["world"] rfl

/-- C6: when the remote chat call raises, `basic_request` leaves the
adapter (in particular its history) unchanged and the same exception
propagates to the caller. -/
theorem C6_failure (self : VolcEngineMaaS) (prompt : String) (kwargs : PyDict)
    (chat : String → ChatReq → Except String String) (params : PyDict) (msg : String)
    (hparams : self._prepare_params kwargs = Except.ok params)
    (hchat : chat self.endpoint_id ⟨params, [⟨ChatRole_USER, prompt⟩]⟩
      = Except.error msg) :
    self.basic_request prompt kwargs chat = (self, Except.error msg)
      ∧ (self.basic_request prompt kwargs chat).1.history = self.history := by
  have h : self.basic_request prompt kwargs chat = (self, Except.error msg) := by
    simp only [VolcEngineMaaS.basic_request, hparams, hchat]
  exact ⟨h, by rw [h]⟩

/-- A remote that always raises with message `"boom"`. -/
def chatFail : String → ChatReq → Except String String :=
  fun _ _ => Except.error "boom"

/-- C6 witness: a concrete failing call leaves the adapter unchanged and
re-raises the same message. -/
theorem C6_witness :
    self0.basic_request "hello" [] chatFail = (self0, Except.error "boom")
      ∧ (self0.basic_request "hello" [] chatFail).1.history = self0.history :=
  C6_failure self0 "hello" [] chatFail defaultKwargs "boom" rfl rfl

/-- The resolution rule as C7 words it: take the explicit argument when
supplied, otherwise fall back to the environment-variable value. -/
def resolveFieldClaim (arg : Option String) (envVal : Option String) : Option String :=
  match arg with
  | Option.none => envVal
  | some s => some s

/-- C7, counterexample.  The claim's resolution rule fails twice on the
code: an explicitly supplied empty-string access key is not taken (Python
`or` treats it as falsy, so the environment value wins), and the service
domain falls back to a built-in constant, not to any environment variable
(here the environment is empty, yet the domain resolves to the
constant). -/
theorem C7_counterexample :
    (_init_maas (fun k => if k == "VOLC_ACCESSKEY" then some "k" else Option.none)
        (some "") Option.none Option.none Option.none).ak
      ≠ resolveFieldClaim (some "")
          ((fun k => if k == "VOLC_ACCESSKEY" then some "k" else Option.none) "VOLC_ACCESSKEY")
  ∧ (_init_maas (fun _ => Option.none)
        Option.none Option.none Option.none Option.none).api_domain
      = "maas-api.ml-platform-cn-beijing.volces.com" := by
  constructor
  · decide
  · rfl

/-- C7 (amended): at construction, access key and secret key take the
explicit argument when it is supplied and non-empty and otherwise fall
back to the `VOLC_ACCESSKEY` / `VOLC_SECRETKEY` environment variables;
service domain and region take the explicit argument when supplied and
non-empty and otherwise fall back to built-in constants (not environment
variables); an explicitly supplied empty string counts as absent (Python
truthiness).  The resolved values are fixed into the session object and
no later call changes it. -/
theorem C7_corrected (ak sk dom reg : Option String) (env : String → Option String) :
    ((∀ x, ak = some x → x ≠ "" → (_init_maas env ak sk dom reg).ak = some x)
      ∧ (ak = Option.none ∨ ak = some "" →
          (_init_maas env ak sk dom reg).ak = env "VOLC_ACCESSKEY"))
  ∧ ((∀ x, sk = some x → x ≠ "" → (_init_maas env ak sk dom reg).sk = some x)
      ∧ (sk = Option.none ∨ sk = some "" →
          (_init_maas env ak sk dom reg).sk = env "VOLC_SECRETKEY"))
  ∧ ((∀ x, dom = some x → x ≠ "" → (_init_maas env ak sk dom reg).api_domain = x)
      ∧ (dom = Option.none ∨ dom = some "" →
          (_init_maas env ak sk dom reg).api_domain
            = "maas-api.ml-platform-cn-beijing.volces.com"))
  ∧ ((∀ x, reg = some x → x ≠ "" → (_init_maas env ak sk dom reg).api_region = x)
      ∧ (reg = Option.none ∨ reg = some "" →
          (_init_maas env ak sk dom reg).api_region = "cn-beijing"))
  ∧ (∀ (s : VolcEngineMaaS) (prompt : String) (kwargs : PyDict)
        (chat : String → ChatReq → Except String String),
      (s.basic_request prompt kwargs chat).1.maas = s.maas)
  ∧ (∀ (prompt : String) (kwargs : PyDict)
        (chats : Nat → String → ChatReq → Except String String)
        (attempt timeLeft : Nat) (s : VolcEngineMaaS),
      (requestLoop prompt kwargs chats attempt timeLeft s).1.maas = s.maas) := by
  refine ⟨⟨?_, ?_⟩, ⟨?_, ?_⟩, ⟨?_, ?_⟩, ⟨?_, ?_⟩, ?_, ?_⟩
  · intro x hx hne
    subst hx
    have hb : ¬ (x == "") = true := by simpa using hne
    simp [_init_maas, pyOrOpt, hb]
  · rintro (hx | hx) <;> subst hx <;> rfl
  · intro x hx hne
    subst hx
    have hb : ¬ (x == "") = true := by simpa using hne
    simp [_init_maas, pyOrOpt, hb]
  · rintro (hx | hx) <;> subst hx <;> rfl
  · intro x hx hne
    subst hx
    have hb : ¬ (x == "") = true := by simpa using hne
    simp [_init_maas, pyOrStr, hb]
  · rintro (hx | hx) <;> subst hx <;> rfl
  · intro x hx hne
    subst hx
    have hb : ¬ (x == "") = true := by simpa using hne
    simp [_init_maas, pyOrStr, hb]
  · rintro (hx | hx) <;> subst hx <;> rfl
  · intro s prompt kwargs chat
    exact (basic_request_onlyAppends s prompt kwargs chat).2.2.1
  · intro prompt kwargs chats attempt timeLeft s
    exact (requestLoop_onlyAppends prompt kwargs chats attempt timeLeft s).2.2.1

/-- An environment holding an access key and a secret key. -/
def envBoth : String → Option String :=
  fun k =>
    if k == "VOLC_ACCESSKEY" then some "EAK"
    else if k == "VOLC_SECRETKEY" then some "ESK"
    else Option.none

/-- C7 witness: the amended resolution rule and session immutability at a
concrete construction — in particular an explicitly supplied empty-string
access key is treated as absent, so the environment's access key wins. -/
theorem C7_witness :
    (_init_maas envBoth (some "") (some "SK") Option.none (some "r")).ak = some "EAK"
  ∧ (_init_maas envBoth (some "") (some "SK") Option.none (some "r")).sk = some "SK"
  ∧ (_init_maas envBoth (some "") (some "SK") Option.none (some "r")).api_domain
      = "maas-api.ml-platform-cn-beijing.volces.com"
  ∧ (_init_maas envBoth (some "") (some "SK") Option.none (some "r")).api_region = "r"
  ∧ (self0.basic_request "hello" [] chatOk).1.maas = self0.maas := by
  have h := C7_corrected (some "") (some "SK") Option.none (some "r") envBoth
  refine ⟨?_, ?_, ?_, ?_, h.2.2.2.2.1 self0 "hello" [] chatOk⟩
  · exact h.1.2 (Or.inr rfl)
  · exact h.2.1.1 "SK" rfl (by decide)
  · exact h.2.2.1.2 (Or.inl rfl)
  · exact h.2.2.2.1.1 "r" rfl (by decide)

/-- C8: the two flags of the invocation entry point, `only_completed` and
`return_sorted`, have no effect: any flag values produce the same result
as the defaults (`true`, `false`), for every prompt, options mapping,
remote behaviour and retry budget. -/
theorem C8_flags_inert (self : VolcEngineMaaS) (prompt : String)
    (only_completed return_sorted : Bool) (kwargs : PyDict)
    (chats : Nat → String → ChatReq → Except String String) (timeBudget : Nat) :
    self.call prompt only_completed return_sorted kwargs chats timeBudget
      = self.call prompt true false kwargs chats timeBudget := rfl

/-- C9: `basic_request`, the retry loop of `request`, `request` and
`__call__` modify no adapter state except appending to the history: the
endpoint identifier, provider label, session object and default-options
mapping are unchanged, and the history of the resulting adapter extends
the original one. -/
theorem C9_frame (self : VolcEngineMaaS) (prompt : String)
    (only_completed return_sorted : Bool) (kwargs : PyDict)
    (chat : String → ChatReq → Except String String)
    (chats : Nat → String → ChatReq → Except String String)
    (attempt timeBudget : Nat) :
    onlyAppendsHistory self (self.basic_request prompt kwargs chat).1
  ∧ onlyAppendsHistory self (requestLoop prompt kwargs chats attempt timeBudget self).1
  ∧ onlyAppendsHistory self (self.request prompt kwargs chats timeBudget).1
  ∧ onlyAppendsHistory self
      (self.call prompt only_completed return_sorted kwargs chats timeBudget).1 :=
  ⟨basic_request_onlyAppends self prompt kwargs chat,
   requestLoop_onlyAppends prompt kwargs chats attempt timeBudget self,
   requestLoop_onlyAppends prompt kwargs chats 0 timeBudget self,
   requestLoop_onlyAppends prompt kwargs chats 0 timeBudget self⟩

/-- C10: every history entry appended by `basic_request` records the
caller's keyword arguments twice, identically: its `kwargs` field equals
its `raw_kwargs` field. -/
theorem C10_kwargs_raw (self : VolcEngineMaaS) (prompt : String) (kwargs : PyDict)
    (chat : String → ChatReq → Except String String) (s' : VolcEngineMaaS)
    (r : Except String (List String))
    (hrun : self.basic_request prompt kwargs chat = (s', r)) :
    ∀ e ∈ s'.history.drop self.history.length, e.kwargs = e.raw_kwargs := by
  simp only [VolcEngineMaaS.basic_request] at hrun
  split at hrun
  · injection hrun with h1 h2
    subst h1
    simp
  · split at hrun
    · injection hrun with h1 h2
      subst h1
      simp
    · injection hrun with h1 h2
      subst h1
      intro e he
      simp only [List.drop_left] at he
      simp only [List.mem_singleton] at he
      subst he
      rfl

/-- C10 witness: the entry appended by a concrete successful call has
equal `kwargs` and `raw_kwargs` fields. -/
theorem C10_witness :
    HistoryEntry.kwargs ⟨"hello", "hello", ["world"], [], []⟩
      = HistoryEntry.raw_kwargs ⟨"hello", "hello", ["world"], [], []⟩ :=
  C10_kwargs_raw self0 "hello" [] chatOk _ _ rfl
    ⟨"hello", "hello", ["world"], [], []⟩ (by decide)
